import Mathlib

/-!
Verification development for the dock plugin manager (src/lib.rs).

The Rust code is shallowly embedded: external effects (filesystem
existence tests, the LD_LIBRARY_PATH environment variable, the parsed
line output of the ldconfig subprocess, dynamic library opening, inotify
watch registration, symbol lookup, and the raw pointers returned by the
plugin across the C ABI) are collected in a `World` record, and each
manager operation becomes a pure function from the old manager state
(and the world) to the new state plus its result. Teardown of a loaded
record is additionally modelled as an event trace reflecting Rust drop
semantics of the `Drop for PluginLibrary` impl.
-/

namespace DockPlugin

/-- Opaque visual handle stored for a record: either built from a
non-null `GtkBox` pointer returned by the plugin across the ABI
(`from_glib_full` + `unsafe_cast`), or the default empty container
`gtk4::Box::new(Orientation::Vertical, 0)` substituted when the plugin
returned null. -/
inductive VisualHandle where
  | fromPtr (p : Nat)
  | defaultBox
deriving DecidableEq, Repr

/-- Opaque style handle stored for a record: either built from a
non-null `GtkCssProvider` pointer returned by the plugin, or the default
`CssProvider::new()` substituted when the plugin returned null. -/
inductive StyleHandle where
  | fromPtr (p : Nat)
  | defaultProvider
deriving DecidableEq, Repr

/-- The cross-boundary plugin proxy (`BoxedPlugin`), reconstructed with
`BoxedPlugin::from_raw` from the opaque instance pointer returned by the
`_plugin_create` constructor symbol. Modelled by that raw pointer. -/
structure BoxedPlugin where
  raw : Nat
deriving DecidableEq, Repr

/-- The mapped dynamic library handle (`libloading::Library`), modelled
by the path it was opened from. -/
structure Library where
  path : String
deriving DecidableEq, Repr

/-- One loaded plugin record (`PluginLibrary` in src/lib.rs), with the
six fields in their Rust declaration order. -/
structure PluginLibrary where
  name : String
  lib_path : String
  plugin : BoxedPlugin
  css_provider : StyleHandle
  applet : VisualHandle
  loaded_library : Library
deriving DecidableEq, Repr

/-- Manager state (`PluginManager`): the record list, whether the
inotify watcher was successfully constructed (`watcher: Option<...>`
being `Some`), and the `watching: Vec<(String, PathBuf)>` list of
(name, library path) pairs pushed at load time. -/
structure PluginManager where
  plugins : List PluginLibrary
  watcherPresent : Bool
  watching : List (String × String)
deriving DecidableEq, Repr

/-- The external world a load interacts with. Keyed by path strings:
`fsExists` is `Path::exists`, `ldcache` is the ldconfig -p output
already parsed into (filename, resolved path) lines, `openOk` tells
whether `Library::new` succeeds, `watchOk` whether `watcher.watch` on a
directory succeeds, `hasConstruct` whether the `_plugin_create` symbol
lookup succeeds, `constructPtr` the opaque instance pointer it returns,
and `appletPtr`, `cssPtr` the nullable raw pointers returned by the
plugin operations (`none` = null). -/
structure World where
  ldLibraryPath : Option String
  fsExists : String → Bool
  ldcache : List (String × String)
  openOk : String → Bool
  watchOk : String → Bool
  hasConstruct : String → Bool
  constructPtr : String → Nat
  appletPtr : String → Option Nat
  cssPtr : String → Option Nat

/-- Linux behavior of `libloading::library_filename`: lib<name>.so . -/
def library_filename (lib_name : String) : String :=
  "lib" ++ lib_name ++ ".so"

/-- Model of `PathBuf::push` of a relative filename onto a directory. -/
def pathJoin (dir file : String) : String :=
  if dir = "" then file
  else if dir.toList.getLast? = some '/' then dir ++ file
  else dir ++ "/" ++ file

/-- Split a character list at every occurrence of the separator, the
accumulator holding the current piece reversed. Mirrors the semantics of
string splitting in the source (an empty input gives one empty piece). -/
def splitOnCharAux (c : Char) : List Char → List Char → List String
  | [], acc => [String.mk acc.reverse]
  | a :: as, acc =>
    if a = c then String.mk acc.reverse :: splitOnCharAux c as []
    else splitOnCharAux c as (a :: acc)

/-- String splitting on a one-character separator. -/
def splitOnChar (c : Char) (s : String) : List String :=
  splitOnCharAux c s.toList []

/-- Model of `Path::parent` composed with unwrap, as used on the resolved library
path: everything before the final path separator. -/
def parentDir (p : String) : String :=
  String.intercalate "/" (splitOnChar '/' p).dropLast

/-- The value of `std::env::var("LD_LIBRARY_PATH")` split on the colon separator;
an unset variable gives the empty directory list (`unwrap_or_default`). -/
def ldDirs : Option String → List String
  | none => []
  | some s => splitOnChar ':' s

instance {ε α : Type} [DecidableEq ε] [DecidableEq α] :
    DecidableEq (Except ε α) := fun x y =>
  match x, y with
  | Except.ok a, Except.ok b =>
    if h : a = b then isTrue (by rw [h])
    else isFalse (fun hc => h (by cases hc; rfl))
  | Except.ok _, Except.error _ => isFalse (fun hc => Except.noConfusion hc)
  | Except.error _, Except.ok _ => isFalse (fun hc => Except.noConfusion hc)
  | Except.error e, Except.error f =>
    if h : e = f then isTrue (by rw [h])
    else isFalse (fun hc => h (by cases hc; rfl))

/-- The regex scan over the ldconfig -p output: `captures_iter` with the
pattern anchored on the computed filename takes the first
`filename => path` line and returns its captured path. -/
def ldconfigLookup (cache : List (String × String)) (filename : String) :
    Option String :=
  (cache.find? (fun e => e.1 == filename)).map (·.2)

/-- The LD_LIBRARY_PATH loop of `get_ld_path`: push the filename onto
each directory in order and return the first candidate that exists. -/
def searchPathHit (w : World) (lib_name : String) : Option String :=
  ((ldDirs w.ldLibraryPath).map
    (fun d => pathJoin d (library_filename lib_name))).find? w.fsExists

/-- Embedding of `get_ld_path`: try the LD_LIBRARY_PATH directories first; only when
no candidate exists fall back to the parsed ldconfig cache; `none` when
both fail. -/
def get_ld_path (w : World) (lib_name : String) : Option String :=
  match searchPathHit w lib_name with
  | some p => some p
  | none => ldconfigLookup w.ldcache (library_filename lib_name)

/-- Error cases of `load_plugin`, one per early return in the source. -/
inductive LoadError where
  | notFound
  | openFailed
  | watchFailed
  | symbolMissing
deriving DecidableEq, Repr

/-- Embedding of `PluginManager::watch_library`: when the watcher exists, forward the
result of `watcher.watch(dir, NonRecursive)`; when the watcher is
absent the function does nothing and returns Ok. -/
def watch_library (w : World) (m : PluginManager) (dir : String) :
    Except Unit Unit :=
  if m.watcherPresent then
    if w.watchOk dir then Except.ok () else Except.error ()
  else Except.ok ()

/-- Embedding of `PluginManager::load_plugin`. Returns the state of the manager after
the call together with the result: early `?` returns leave the record
and watching lists untouched; on success the new record and the
(name, path) pair are appended and references to the stored handles are
returned. Null pointers from `_applet` and `_css_provider` are
substituted by the defaults. -/
def load_plugin (w : World) (m : PluginManager) (name : String) :
    PluginManager × Except LoadError (VisualHandle × StyleHandle) :=
  match get_ld_path w name with
  | none => (m, Except.error LoadError.notFound)
  | some lib_path =>
    if w.openOk lib_path then
      match watch_library w m (parentDir lib_path) with
      | Except.error _ => (m, Except.error LoadError.watchFailed)
      | Except.ok _ =>
        if w.hasConstruct lib_path then
          let plugin : BoxedPlugin := ⟨w.constructPtr lib_path⟩
          let applet : VisualHandle :=
            match w.appletPtr lib_path with
            | some p => VisualHandle.fromPtr p
            | none => VisualHandle.defaultBox
          let css_provider : StyleHandle :=
            match w.cssPtr lib_path with
            | some p => StyleHandle.fromPtr p
            | none => StyleHandle.defaultProvider
          let entry : PluginLibrary :=
            { name := name, lib_path := lib_path, plugin := plugin,
              css_provider := css_provider, applet := applet,
              loaded_library := ⟨lib_path⟩ }
          ({ m with plugins := m.plugins ++ [entry],
                    watching := m.watching ++ [(name, lib_path)] },
           Except.ok (applet, css_provider))
        else (m, Except.error LoadError.symbolMissing)
    else (m, Except.error LoadError.openFailed)

/-- Embedding of `PluginManager::unload_plugin`: find the index of the first record
whose lib_path matches and remove it (the removed record is dropped,
running its teardown); a missing path is a silent no-op. The watching
list is not touched. -/
def unload_plugin (m : PluginManager) (lib_path : String) : PluginManager :=
  match m.plugins.findIdx? (fun p => p.lib_path == lib_path) with
  | some i => { m with plugins := m.plugins.eraseIdx i }
  | none => m

/-- Embedding of `PluginManager::unload_all`: drain and drop every record, then, only
when the watcher exists, drain the watching list (unwatching each entry,
result ignored). With no watcher the watching list is left as is. -/
def unload_all (m : PluginManager) : PluginManager :=
  let m1 : PluginManager := { m with plugins := [] }
  if m1.watcherPresent then { m1 with watching := [] } else m1

/-- Embedding of `PluginManager::paths`: the lib_path of every record, in order. -/
def paths (m : PluginManager) : List String :=
  m.plugins.map (·.lib_path)

/-- Embedding of `PluginManager::library_path_to_name`: first watching pair whose
path matches, projected to its name. -/
def library_path_to_name (m : PluginManager) (lib_filename : String) :
    Option String :=
  (m.watching.find? (fun pr => pr.2 == lib_filename)).map (·.1)

/-- Embedding of `PluginManager::library_path_to_applet`: stored applet of the first
record whose lib_path matches. -/
def library_path_to_applet (m : PluginManager) (lib_filename : String) :
    Option VisualHandle :=
  (m.plugins.find? (fun p => p.lib_path == lib_filename)).map (·.applet)

/-- Embedding of `PluginManager::new`: with a successful `async_watcher` the manager
starts with the watcher present; on watcher construction failure it is
the all-default manager without a watcher. Either way both lists start
empty. -/
def PluginManager.new (watcherOk : Bool) : PluginManager :=
  { plugins := [], watcherPresent := watcherOk, watching := [] }

/-- Observable steps of tearing down one `PluginLibrary` record. -/
inductive TeardownEvent where
  | unloadHook
  | dropName
  | dropLibPath
  | dropProxy
  | dropStyle
  | dropVisual
  | dropLibrary
deriving DecidableEq, BEq, Repr

/-- In the `Drop for PluginLibrary` body, `self` is destructured through
a mutable reference, so each bound field is itself a mutable reference;
`drop(x)` applied to such a reference only discards the reference and
runs no destructor. -/
def dropMutRefEvents : List TeardownEvent := []

/-- Events of the `Drop::drop` body in source order: the real call
`plugin.on_plugin_unload()`, then the six explicit `drop(...)` calls on
`applet`, `name`, `filename`, `css_provider`, `plugin`,
`loaded_library`, each of which acts on a mutable reference. -/
def dropBodyEvents : List TeardownEvent :=
  [TeardownEvent.unloadHook]
    ++ dropMutRefEvents ++ dropMutRefEvents ++ dropMutRefEvents
    ++ dropMutRefEvents ++ dropMutRefEvents ++ dropMutRefEvents

/-- After `Drop::drop` returns, Rust drops the fields of the struct in
their declaration order: name, lib_path, plugin, css_provider, applet,
loaded_library. -/
def implicitFieldDropEvents : List TeardownEvent :=
  [TeardownEvent.dropName, TeardownEvent.dropLibPath,
   TeardownEvent.dropProxy, TeardownEvent.dropStyle,
   TeardownEvent.dropVisual, TeardownEvent.dropLibrary]

/-- The full event trace of destroying one record: the drop body, then
the implicit field drops. -/
def teardownEvents : List TeardownEvent :=
  dropBodyEvents ++ implicitFieldDropEvents

/-- Event trace of `unload_plugin`: when a record with the given path is
found, `Vec::remove` hands it back and it is dropped on the spot,
producing one full teardown trace; otherwise nothing happens. -/
def unload_plugin_events (m : PluginManager) (lib_path : String) :
    List TeardownEvent :=
  match m.plugins.findIdx? (fun p => p.lib_path == lib_path) with
  | some _ => teardownEvents
  | none => []

/-! Concrete worlds used to exercise the definitions. -/

/-- A world where LD_LIBRARY_PATH is /opt/plugins, the file
/opt/plugins/libfoo.so exists, and every external step succeeds; the
plugin returns non-null applet and css pointers. -/
def wFoo : World :=
  { ldLibraryPath := some "/opt/plugins"
    fsExists := fun p => p == "/opt/plugins/libfoo.so"
    ldcache := []
    openOk := fun _ => true
    watchOk := fun _ => true
    hasConstruct := fun _ => true
    constructPtr := fun _ => 7
    appletPtr := fun _ => some 1
    cssPtr := fun _ => some 2 }

/-- Like `wFoo`, except every `watcher.watch` call fails. -/
def wWatchFail : World :=
  { wFoo with watchOk := fun _ => false }

/-- A world where nothing resolves: no LD_LIBRARY_PATH, no files, an
empty ldconfig cache. -/
def wEmpty : World :=
  { ldLibraryPath := none
    fsExists := fun _ => false
    ldcache := []
    openOk := fun _ => false
    watchOk := fun _ => true
    hasConstruct := fun _ => false
    constructPtr := fun _ => 0
    appletPtr := fun _ => none
    cssPtr := fun _ => none }

/-- A world where bar resolves only through the ldconfig cache and the
plugin returns null applet and css pointers. -/
def wBar : World :=
  { ldLibraryPath := none
    fsExists := fun _ => false
    ldcache := [("libbar.so", "/usr/lib/libbar.so")]
    openOk := fun _ => true
    watchOk := fun _ => true
    hasConstruct := fun _ => true
    constructPtr := fun _ => 9
    appletPtr := fun _ => none
    cssPtr := fun _ => none }

/-- Manager state after one successful load of foo on a fresh manager
with a watcher. -/
def mFoo1 : PluginManager :=
  (load_plugin wFoo (PluginManager.new true) "foo").1

/-- Manager state after loading foo twice in a row. -/
def mFoo2 : PluginManager :=
  (load_plugin wFoo mFoo1 "foo").1

/-- Manager state after one successful load of foo on a fresh manager
whose watcher construction failed. -/
def mNoWatcherFoo : PluginManager :=
  (load_plugin wFoo (PluginManager.new false) "foo").1

/-- Manager state after one successful load of bar on a fresh manager
with a watcher. -/
def mBar1 : PluginManager :=
  (load_plugin wBar (PluginManager.new true) "bar").1

/-- Manager state after loading bar twice in a row. -/
def mBar2 : PluginManager :=
  (load_plugin wBar mBar1 "bar").1

/-! Helper lemmas shared by the claim theorems. -/

/-- Every failing branch of `load_plugin` returns the manager unchanged;
only the success branch returns an ok result. -/
theorem load_plugin_fst_or_ok (w : World) (m : PluginManager) (name : String) :
    (load_plugin w m name).1 = m ∨ (load_plugin w m name).2.isOk = true := by
  unfold load_plugin
  cases hg : get_ld_path w name with
  | none => exact Or.inl rfl
  | some lib_path =>
    dsimp only
    by_cases ho : w.openOk lib_path
    · rw [if_pos ho]
      cases hw : watch_library w m (parentDir lib_path) with
      | error u => exact Or.inl rfl
      | ok u =>
        dsimp only
        by_cases hc : w.hasConstruct lib_path
        · rw [if_pos hc]
          exact Or.inr rfl
        · rw [if_neg hc]
          exact Or.inl rfl
    · rw [if_neg ho]
      exact Or.inl rfl

/-- Characterization of a successful `load_plugin` call: the resolved
path exists, every fallible step succeeded, the returned handles are the
null-substituted plugin pointers, and the new state appends exactly one
record and one watching pair. -/
theorem load_plugin_ok_spec (w : World) (m : PluginManager) (name : String)
    (m' : PluginManager) (v : VisualHandle) (s : StyleHandle)
    (h : load_plugin w m name = (m', Except.ok (v, s))) :
    ∃ lib_path : String,
      get_ld_path w name = some lib_path ∧
      w.openOk lib_path = true ∧
      watch_library w m (parentDir lib_path) = Except.ok () ∧
      w.hasConstruct lib_path = true ∧
      v = (match w.appletPtr lib_path with
           | some p => VisualHandle.fromPtr p
           | none => VisualHandle.defaultBox) ∧
      s = (match w.cssPtr lib_path with
           | some p => StyleHandle.fromPtr p
           | none => StyleHandle.defaultProvider) ∧
      m' = { m with
        plugins := m.plugins ++
          [{ name := name, lib_path := lib_path,
             plugin := ⟨w.constructPtr lib_path⟩, css_provider := s,
             applet := v, loaded_library := ⟨lib_path⟩ }],
        watching := m.watching ++ [(name, lib_path)] } := by
  unfold load_plugin at h
  cases hg : get_ld_path w name with
  | none =>
    rw [hg] at h
    simp at h
  | some lib_path =>
    rw [hg] at h
    dsimp only at h
    by_cases ho : w.openOk lib_path
    · rw [if_pos ho] at h
      cases hw : watch_library w m (parentDir lib_path) with
      | error u =>
        rw [hw] at h
        simp at h
      | ok u =>
        rw [hw] at h
        dsimp only at h
        by_cases hc : w.hasConstruct lib_path
        · rw [if_pos hc] at h
          simp only [Prod.mk.injEq, Except.ok.injEq] at h
          obtain ⟨hm, hv, hs⟩ := h
          refine ⟨lib_path, rfl, ho, ?_, hc, hv.symm, hs.symm, ?_⟩
          · cases u
            exact hw
          · rw [← hm, ← hv, ← hs]
        · rw [if_neg hc] at h
          simp at h
    · rw [if_neg ho] at h
      simp at h

/-! Claim theorems. -/

/-- C5: library resolution computes the platform filename, searches the
LD_LIBRARY_PATH directories in order and returns the first existing
directory/filename candidate no matter what the ldconfig cache holds;
only when no candidate exists does it consult the parsed ldconfig output,
and it returns none exactly when both sources yield nothing. -/
theorem C5_resolution_order (w : World) (lib_name : String) :
    (∀ p, searchPathHit w lib_name = some p →
      ∀ cache, get_ld_path { w with ldcache := cache } lib_name = some p) ∧
    (searchPathHit w lib_name = none →
      get_ld_path w lib_name =
        ldconfigLookup w.ldcache (library_filename lib_name)) ∧
    (get_ld_path w lib_name = none ↔
      searchPathHit w lib_name = none ∧
      ldconfigLookup w.ldcache (library_filename lib_name) = none) := by
  refine ⟨?_, ?_, ?_⟩
  · intro p hp cache
    have hp' : searchPathHit { w with ldcache := cache } lib_name = some p := hp
    unfold get_ld_path
    rw [hp']
  · intro hnone
    unfold get_ld_path
    rw [hnone]
  · constructor
    · intro h
      unfold get_ld_path at h
      cases hs : searchPathHit w lib_name with
      | none =>
        rw [hs] at h
        exact ⟨rfl, h⟩
      | some p =>
        rw [hs] at h
        cases h
    · rintro ⟨h1, h2⟩
      unfold get_ld_path
      rw [h1]
      exact h2

/-- Witness for C5 at a concrete world: /opt/plugins/libfoo.so exists on
the search path while the cache names a different path for the same
filename, and the search-path hit wins. -/
theorem C5_resolution_order_witness :
    searchPathHit wFoo "foo" = some "/opt/plugins/libfoo.so" ∧
    get_ld_path { wFoo with ldcache := [("libfoo.so", "/usr/lib/libfoo.so")] }
      "foo" = some "/opt/plugins/libfoo.so" :=
  ⟨by decide,
   (C5_resolution_order wFoo "foo").1 "/opt/plugins/libfoo.so" (by decide)
     [("libfoo.so", "/usr/lib/libfoo.so")]⟩

/-- C7: every load that returns an error (resolution failure, open
failure, watch failure, or missing construct symbol) leaves the manager
exactly as it was: the record list, the watching list and the watcher
flag are all unchanged, so no partial record is ever registered. -/
theorem C7_failed_load_leaves_state (w : World) (m : PluginManager)
    (name : String) (e : LoadError)
    (h : (load_plugin w m name).2 = Except.error e) :
    (load_plugin w m name).1 = m := by
  rcases load_plugin_fst_or_ok w m name with h1 | h1
  · exact h1
  · rw [h] at h1
    exact Bool.noConfusion h1

/-- Witness for C7: an unresolvable name returns notFound and the fresh
manager is unchanged. -/
theorem C7_failed_load_leaves_state_witness :
    (load_plugin wEmpty (PluginManager.new true) "foo").2 =
      Except.error LoadError.notFound ∧
    (load_plugin wEmpty (PluginManager.new true) "foo").1 =
      PluginManager.new true :=
  ⟨by decide,
   C7_failed_load_leaves_state wEmpty (PluginManager.new true) "foo"
     LoadError.notFound (by decide)⟩

/-- C6: on every successful load the handles returned to the caller are
the handles stored in the appended record, and a null applet pointer is
replaced by the default empty box while a null css pointer is replaced
by the default provider; non-null pointers are taken as is, so the
stored handles are never absent. -/
theorem C6_null_substitution (w : World) (m : PluginManager) (name : String)
    (m' : PluginManager) (v : VisualHandle) (s : StyleHandle)
    (h : load_plugin w m name = (m', Except.ok (v, s))) :
    ∃ lib_path entry,
      get_ld_path w name = some lib_path ∧
      m'.plugins = m.plugins ++ [entry] ∧
      entry.applet = v ∧
      entry.css_provider = s ∧
      (w.appletPtr lib_path = none → v = VisualHandle.defaultBox) ∧
      (∀ p, w.appletPtr lib_path = some p → v = VisualHandle.fromPtr p) ∧
      (w.cssPtr lib_path = none → s = StyleHandle.defaultProvider) ∧
      (∀ p, w.cssPtr lib_path = some p → s = StyleHandle.fromPtr p) := by
  obtain ⟨lib_path, hg, ho, hw, hc, hv, hs, hm⟩ :=
    load_plugin_ok_spec w m name m' v s h
  refine ⟨lib_path,
    { name := name, lib_path := lib_path,
      plugin := ⟨w.constructPtr lib_path⟩, css_provider := s,
      applet := v, loaded_library := ⟨lib_path⟩ },
    hg, ?_, rfl, rfl, ?_, ?_, ?_, ?_⟩
  · rw [hm]
  · intro hnull
    rw [hv, hnull]
  · intro p hp
    rw [hv, hp]
  · intro hnull
    rw [hs, hnull]
  · intro p hp
    rw [hs, hp]

/-- Witness for C6 at a concrete world where the plugin returns null for
both pointers: the defaults are stored and returned. -/
theorem C6_null_substitution_witness :
    load_plugin wBar (PluginManager.new true) "bar" =
      (mBar1, Except.ok (VisualHandle.defaultBox, StyleHandle.defaultProvider)) ∧
    (∃ lib_path entry,
      get_ld_path wBar "bar" = some lib_path ∧
      mBar1.plugins = (PluginManager.new true).plugins ++ [entry] ∧
      entry.applet = VisualHandle.defaultBox ∧
      entry.css_provider = StyleHandle.defaultProvider ∧
      (wBar.appletPtr lib_path = none →
        VisualHandle.defaultBox = VisualHandle.defaultBox) ∧
      (∀ p, wBar.appletPtr lib_path = some p →
        VisualHandle.defaultBox = VisualHandle.fromPtr p) ∧
      (wBar.cssPtr lib_path = none →
        StyleHandle.defaultProvider = StyleHandle.defaultProvider) ∧
      (∀ p, wBar.cssPtr lib_path = some p →
        StyleHandle.defaultProvider = StyleHandle.fromPtr p)) :=
  ⟨by decide,
   C6_null_substitution wBar (PluginManager.new true) "bar" mBar1
     VisualHandle.defaultBox StyleHandle.defaultProvider (by decide)⟩

/-- findIdx? over an all-false prefix followed by a matching element
finds exactly the index just past the prefix. -/
theorem findIdx_append_single {α : Type} (p : α → Bool) (l : List α) (a : α)
    (hl : ∀ x ∈ l, p x = false) (ha : p a = true) :
    (l ++ [a]).findIdx? p = some l.length := by
  induction l with
  | nil => simp [ha]
  | cons x xs ih =>
    have hx : p x = false := hl x (List.mem_cons_self x xs)
    have ih' := ih (fun y hy => hl y (List.mem_cons_of_mem x hy))
    simp [hx, ih']

/-- The function `unload_plugin` never touches the watching list or the watcher. -/
theorem unload_plugin_watching (m : PluginManager) (target : String) :
    (unload_plugin m target).watching = m.watching ∧
    (unload_plugin m target).watcherPresent = m.watcherPresent := by
  unfold unload_plugin
  cases h : m.plugins.findIdx? (fun q => q.lib_path == target) with
  | none => exact ⟨rfl, rfl⟩
  | some i => exact ⟨rfl, rfl⟩

/-- Unloading the path of a just-appended record, when no earlier record
has that path, removes exactly the appended record. -/
theorem unload_plugin_appended (m : PluginManager) (l : List PluginLibrary)
    (entry : PluginLibrary) (hp : m.plugins = l ++ [entry])
    (hl : ∀ x ∈ l, x.lib_path ≠ entry.lib_path) :
    (unload_plugin m entry.lib_path).plugins = l := by
  have hidx : m.plugins.findIdx?
      (fun q => q.lib_path == entry.lib_path) = some l.length := by
    rw [hp]
    apply findIdx_append_single
    · intro x hx
      simp [hl x hx]
    · simp
  unfold unload_plugin
  rw [hidx]
  dsimp only
  rw [hp, List.eraseIdx_append_of_length_le (Nat.le_refl _)]
  simp

/-- The first watching entry for a path that no earlier entry mentions
is the appended pair. -/
theorem find_name_appended (watching : List (String × String))
    (name lib_path : String)
    (hw : ∀ pr ∈ watching, pr.2 ≠ lib_path) :
    ((watching ++ [(name, lib_path)]).find?
      (fun pr => pr.2 == lib_path)).map (·.1) = some name := by
  have h1 : watching.find? (fun pr => pr.2 == lib_path) = none := by
    rw [List.find?_eq_none]
    intro x hx
    simp [hw x hx]
  rw [List.find?_append, h1]
  simp

/-- C8 (amended): after a successful load of a name whose resolved path
was not already among the record paths nor in the watching list, paths
contains the resolved path exactly once and library_path_to_name maps it
back to the name. -/
theorem C8_amended_paths_once (w : World) (m : PluginManager) (name : String)
    (m' : PluginManager) (v : VisualHandle) (s : StyleHandle)
    (lib_path : String)
    (h : load_plugin w m name = (m', Except.ok (v, s)))
    (hres : get_ld_path w name = some lib_path)
    (hfresh : lib_path ∉ paths m)
    (hwatch : ∀ pr ∈ m.watching, pr.2 ≠ lib_path) :
    List.count lib_path (paths m') = 1 ∧
    library_path_to_name m' lib_path = some name := by
  obtain ⟨lp, hg, ho, hw, hc, hv, hs, hm⟩ :=
    load_plugin_ok_spec w m name m' v s h
  rw [hres] at hg
  injection hg with hg
  subst hg
  constructor
  · rw [hm]
    have hz : List.count lib_path (paths m) = 0 :=
      List.count_eq_zero.mpr hfresh
    simp [paths, List.count_append] at hz ⊢
    simp [hz]
  · rw [hm]
    unfold library_path_to_name
    exact find_name_appended m.watching name lib_path hwatch

/-- Witness for C8 amended: one load of bar on a fresh manager. -/
theorem C8_amended_paths_once_witness :
    load_plugin wBar (PluginManager.new true) "bar" =
      (mBar1, Except.ok (VisualHandle.defaultBox, StyleHandle.defaultProvider)) ∧
    (List.count "/usr/lib/libbar.so" (paths mBar1) = 1 ∧
     library_path_to_name mBar1 "/usr/lib/libbar.so" = some "bar") :=
  ⟨by decide,
   C8_amended_paths_once wBar (PluginManager.new true) "bar" mBar1
     VisualHandle.defaultBox StyleHandle.defaultProvider "/usr/lib/libbar.so"
     (by decide) (by decide) (by decide) (by decide)⟩

/-- C8 counterexample: loading the same name a second time also succeeds
(there is no duplicate check), after which paths contains the resolved
path twice, refuting the claim that every successful load leaves the
path exactly once. -/
theorem C8_counterexample :
    (load_plugin wBar mBar1 "bar").2.isOk = true ∧
    List.count "/usr/lib/libbar.so" (paths mBar2) = 2 := by decide

/-- C10 counterexample: foo is loaded twice (both loads succeed, since
duplicates are not rejected), then one unload_plugin of its path removes
only the first matching record, so afterwards the path is still among
the record paths — refuting, for the plugin of the first load, the
claim that paths() no longer contains the unloaded path. The watching
pair pushed at load time does persist. -/
theorem C10_counterexample :
    (load_plugin wFoo mFoo1 "foo").2.isOk = true ∧
    (unload_plugin mFoo2 "/opt/plugins/libfoo.so").plugins.length = 1 ∧
    "/opt/plugins/libfoo.so" ∈
      paths (unload_plugin mFoo2 "/opt/plugins/libfoo.so") ∧
    ("foo", "/opt/plugins/libfoo.so") ∈
      (unload_plugin mFoo2 "/opt/plugins/libfoo.so").watching := by decide

/-- C10 (amended): after a successful load of a name whose resolved path
was not already among the record paths nor mentioned by any watching
entry, unload_plugin of that path leaves the watching list unchanged
with the (name, path) pair pushed at load time still present, so
library_path_to_name still answers the name, and the path is no longer
among the record paths. Without that freshness condition the last part
fails, because a duplicate load leaves a second record with the same
path that a single unload does not remove. -/
theorem C10_watching_persists (w : World) (m : PluginManager) (name : String)
    (m' : PluginManager) (v : VisualHandle) (s : StyleHandle)
    (lib_path : String)
    (h : load_plugin w m name = (m', Except.ok (v, s)))
    (hres : get_ld_path w name = some lib_path)
    (hfresh : lib_path ∉ paths m)
    (hwatch : ∀ pr ∈ m.watching, pr.2 ≠ lib_path) :
    (unload_plugin m' lib_path).watching = m'.watching ∧
    (name, lib_path) ∈ (unload_plugin m' lib_path).watching ∧
    library_path_to_name (unload_plugin m' lib_path) lib_path = some name ∧
    lib_path ∉ paths (unload_plugin m' lib_path) := by
  obtain ⟨lp, hg, ho, hw, hc, hv, hs, hm⟩ :=
    load_plugin_ok_spec w m name m' v s h
  rw [hres] at hg
  injection hg with hg
  subst hg
  have hwu := unload_plugin_watching m' lib_path
  refine ⟨hwu.1, ?_, ?_, ?_⟩
  · rw [hwu.1, hm]
    exact List.mem_append_right _ (List.mem_singleton_self _)
  · unfold library_path_to_name
    rw [hwu.1, hm]
    exact find_name_appended m.watching name lib_path hwatch
  · have hplug :
        (unload_plugin m' lib_path).plugins = m.plugins := by
      have hl : ∀ x ∈ m.plugins, x.lib_path ≠ lib_path := by
        intro x hx hcontra
        exact hfresh (hcontra ▸ List.mem_map_of_mem (·.lib_path) hx)
      have := unload_plugin_appended m' m.plugins
        { name := name, lib_path := lib_path,
          plugin := ⟨w.constructPtr lib_path⟩, css_provider := s,
          applet := v, loaded_library := ⟨lib_path⟩ }
        (by rw [hm]) hl
      exact this
    intro hmem
    apply hfresh
    unfold paths at hmem ⊢
    rw [hplug] at hmem
    exact hmem

/-- Witness for C10: load foo, unload its path; the watching pair is
still there, the name is still recoverable, the record is gone. -/
theorem C10_watching_persists_witness :
    load_plugin wFoo (PluginManager.new true) "foo" =
      (mFoo1, Except.ok (VisualHandle.fromPtr 1, StyleHandle.fromPtr 2)) ∧
    ((unload_plugin mFoo1 "/opt/plugins/libfoo.so").watching =
        mFoo1.watching ∧
      ("foo", "/opt/plugins/libfoo.so") ∈
        (unload_plugin mFoo1 "/opt/plugins/libfoo.so").watching ∧
      library_path_to_name (unload_plugin mFoo1 "/opt/plugins/libfoo.so")
        "/opt/plugins/libfoo.so" = some "foo" ∧
      "/opt/plugins/libfoo.so" ∉
        paths (unload_plugin mFoo1 "/opt/plugins/libfoo.so")) :=
  ⟨by decide,
   C10_watching_persists wFoo (PluginManager.new true) "foo" mFoo1
     (VisualHandle.fromPtr 1) (StyleHandle.fromPtr 2)
     "/opt/plugins/libfoo.so" (by decide) (by decide) (by decide) (by decide)⟩

/-- C1 counterexample: the first load of foo succeeds; loading foo a
second time with no intervening unload also succeeds (there is no
AlreadyLoaded rejection anywhere in load_plugin), the record count grows
from one to two, and the records now hold a duplicated library path. -/
theorem C1_counterexample :
    (load_plugin wFoo mFoo1 "foo").2 =
      Except.ok (VisualHandle.fromPtr 1, StyleHandle.fromPtr 2) ∧
    List.count "/opt/plugins/libfoo.so" (paths mFoo1) = 1 ∧
    List.count "/opt/plugins/libfoo.so" (paths mFoo2) = 2 := by decide

/-- C1 (amended): a load whose resolved path is already among the record
paths is not rejected: whenever resolution, opening, watching and the
symbol lookup succeed, the load returns ok and appends another record
with the same library path, so the count of that path grows by one and
duplicates appear. -/
theorem C1_amended_duplicate_load (w : World) (m : PluginManager)
    (name lib_path : String)
    (hres : get_ld_path w name = some lib_path)
    (hopen : w.openOk lib_path = true)
    (hwatch : watch_library w m (parentDir lib_path) = Except.ok ())
    (hsym : w.hasConstruct lib_path = true)
    (hdup : lib_path ∈ paths m) :
    (load_plugin w m name).2.isOk = true ∧
    List.count lib_path (paths (load_plugin w m name).1) =
      List.count lib_path (paths m) + 1 ∧
    2 ≤ List.count lib_path (paths (load_plugin w m name).1) := by
  have hred : load_plugin w m name =
      ({ m with
          plugins := m.plugins ++
            [{ name := name, lib_path := lib_path,
               plugin := ⟨w.constructPtr lib_path⟩,
               css_provider :=
                 match w.cssPtr lib_path with
                 | some p => StyleHandle.fromPtr p
                 | none => StyleHandle.defaultProvider,
               applet :=
                 match w.appletPtr lib_path with
                 | some p => VisualHandle.fromPtr p
                 | none => VisualHandle.defaultBox,
               loaded_library := ⟨lib_path⟩ }],
          watching := m.watching ++ [(name, lib_path)] },
       Except.ok
         ((match w.appletPtr lib_path with
           | some p => VisualHandle.fromPtr p
           | none => VisualHandle.defaultBox),
          (match w.cssPtr lib_path with
           | some p => StyleHandle.fromPtr p
           | none => StyleHandle.defaultProvider))) := by
    unfold load_plugin
    rw [hres]
    dsimp only
    rw [if_pos hopen, hwatch]
    dsimp only
    rw [if_pos hsym]
  rw [hred]
  have hcnt : List.count lib_path
      (paths { m with
        plugins := m.plugins ++
          [{ name := name, lib_path := lib_path,
             plugin := ⟨w.constructPtr lib_path⟩,
             css_provider :=
               match w.cssPtr lib_path with
               | some p => StyleHandle.fromPtr p
               | none => StyleHandle.defaultProvider,
             applet :=
               match w.appletPtr lib_path with
               | some p => VisualHandle.fromPtr p
               | none => VisualHandle.defaultBox,
             loaded_library := ⟨lib_path⟩ }],
        watching := m.watching ++ [(name, lib_path)] }) =
      List.count lib_path (paths m) + 1 := by
    simp [paths, List.count_append]
  refine ⟨rfl, hcnt, ?_⟩
  rw [hcnt]
  have h1 : 1 ≤ List.count lib_path (paths m) :=
    List.one_le_count_iff.mpr hdup
  omega

/-- Witness for C1 amended: loading foo when foo is already loaded. -/
theorem C1_amended_duplicate_load_witness :
    "/opt/plugins/libfoo.so" ∈ paths mFoo1 ∧
    ((load_plugin wFoo mFoo1 "foo").2.isOk = true ∧
     List.count "/opt/plugins/libfoo.so" (paths (load_plugin wFoo mFoo1 "foo").1) =
       List.count "/opt/plugins/libfoo.so" (paths mFoo1) + 1 ∧
     2 ≤ List.count "/opt/plugins/libfoo.so"
       (paths (load_plugin wFoo mFoo1 "foo").1)) :=
  ⟨by decide,
   C1_amended_duplicate_load wFoo mFoo1 "foo" "/opt/plugins/libfoo.so"
     (by decide) (by decide) (by decide) (by decide) (by decide)⟩

/-- C2 counterexample: resolution succeeds and the library opens, but
the watch registration fails, and load_plugin returns the error through
the question-mark operator instead of proceeding: no plugin is
constructed and no record registered. -/
theorem C2_counterexample :
    get_ld_path wWatchFail "foo" = some "/opt/plugins/libfoo.so" ∧
    wWatchFail.openOk "/opt/plugins/libfoo.so" = true ∧
    load_plugin wWatchFail (PluginManager.new true) "foo" =
      (PluginManager.new true, Except.error LoadError.watchFailed) := by decide

/-- C2 (amended): watch registration is harmless only when the watcher
itself is absent, in which case watch_library trivially succeeds and the
load goes on to succeed; when a watcher exists and the watch call fails,
load_plugin returns the watch error and leaves the manager unchanged. -/
theorem C2_amended_watch_failure (w : World) (m : PluginManager)
    (name lib_path : String)
    (hres : get_ld_path w name = some lib_path)
    (hopen : w.openOk lib_path = true) :
    (m.watcherPresent = false → w.hasConstruct lib_path = true →
      (load_plugin w m name).2.isOk = true) ∧
    (m.watcherPresent = true → w.watchOk (parentDir lib_path) = false →
      load_plugin w m name = (m, Except.error LoadError.watchFailed)) := by
  constructor
  · intro hwp hsym
    have hwatch : watch_library w m (parentDir lib_path) = Except.ok () := by
      unfold watch_library
      rw [if_neg (by rw [hwp]; exact Bool.false_ne_true)]
    unfold load_plugin
    rw [hres]
    dsimp only
    rw [if_pos hopen, hwatch]
    dsimp only
    rw [if_pos hsym]
    rfl
  · intro hwp hwf
    have hwatch : watch_library w m (parentDir lib_path) =
        Except.error () := by
      unfold watch_library
      rw [if_pos hwp, if_neg (by rw [hwf]; exact Bool.false_ne_true)]
    unfold load_plugin
    rw [hres]
    dsimp only
    rw [if_pos hopen, hwatch]

/-- Witness for C2 amended: the failing-watch branch at a concrete
world. -/
theorem C2_amended_watch_failure_witness :
    (PluginManager.new true).watcherPresent = true ∧
    wWatchFail.watchOk (parentDir "/opt/plugins/libfoo.so") = false ∧
    load_plugin wWatchFail (PluginManager.new true) "foo" =
      (PluginManager.new true, Except.error LoadError.watchFailed) :=
  ⟨rfl, by decide,
   (C2_amended_watch_failure wWatchFail (PluginManager.new true) "foo"
     "/opt/plugins/libfoo.so" (by decide) (by decide)).2 rfl (by decide)⟩

/-- C3 counterexample: unloading the loaded path removes the record and
that is all — the watching entry registered at load time is still there,
so no unwatch happened at removal. -/
theorem C3_counterexample :
    unload_plugin mFoo1 "/opt/plugins/libfoo.so" =
      { plugins := [], watcherPresent := true,
        watching := [("foo", "/opt/plugins/libfoo.so")] } ∧
    (unload_plugin mFoo1 "/opt/plugins/libfoo.so").watching ≠ [] := by decide

/-- C3 (amended): unload of a loaded library path removes exactly one
record (the first whose path matches) and drops it, which runs the full
teardown trace, but it does not unwatch anything: the watching list and
the watcher are untouched and the entry stays until unload_all. -/
theorem C3_amended_unload (m : PluginManager) (lib_path : String)
    (h : lib_path ∈ paths m) :
    (unload_plugin m lib_path).plugins.length + 1 = m.plugins.length ∧
    unload_plugin_events m lib_path = teardownEvents ∧
    (unload_plugin m lib_path).watching = m.watching ∧
    (unload_plugin m lib_path).watcherPresent = m.watcherPresent := by
  have hex : ∃ x, x ∈ m.plugins ∧ (x.lib_path == lib_path) = true := by
    unfold paths at h
    rcases List.mem_map.mp h with ⟨x, hx, hxe⟩
    exact ⟨x, hx, by simp [hxe]⟩
  have hidx := List.findIdx?_eq_some_of_exists hex
  have hlt : m.plugins.findIdx (fun x => x.lib_path == lib_path) <
      m.plugins.length :=
    (List.findIdx?_eq_some_iff_findIdx_eq.mp hidx).1
  have hwu := unload_plugin_watching m lib_path
  refine ⟨?_, ?_, hwu.1, hwu.2⟩
  · have hplug : (unload_plugin m lib_path).plugins =
        m.plugins.eraseIdx
          (m.plugins.findIdx (fun x => x.lib_path == lib_path)) := by
      unfold unload_plugin
      rw [hidx]
    rw [hplug, List.length_eraseIdx_of_lt hlt]
    omega
  · unfold unload_plugin_events
    rw [hidx]

/-- Witness for C3 amended at the one-plugin manager. -/
theorem C3_amended_unload_witness :
    "/opt/plugins/libfoo.so" ∈ paths mFoo1 ∧
    ((unload_plugin mFoo1 "/opt/plugins/libfoo.so").plugins.length + 1 =
        mFoo1.plugins.length ∧
      unload_plugin_events mFoo1 "/opt/plugins/libfoo.so" = teardownEvents ∧
      (unload_plugin mFoo1 "/opt/plugins/libfoo.so").watching =
        mFoo1.watching ∧
      (unload_plugin mFoo1 "/opt/plugins/libfoo.so").watcherPresent =
        mFoo1.watcherPresent) :=
  ⟨by decide, C3_amended_unload mFoo1 "/opt/plugins/libfoo.so" (by decide)⟩

/-- C4 counterexample: when the watcher construction failed, a load
still pushes its watching pair, and unload_all then drains the records
but leaves the watching pair in place, refuting zero watched entries
regardless of watcher construction. -/
theorem C4_counterexample :
    mNoWatcherFoo.watcherPresent = false ∧
    (unload_all mNoWatcherFoo).plugins = [] ∧
    (unload_all mNoWatcherFoo).watching =
      [("foo", "/opt/plugins/libfoo.so")] ∧
    (unload_all mNoWatcherFoo).watching ≠ [] := by decide

/-- C4 (amended): unload_all always empties the record list; it empties
the watching list exactly when the watcher was successfully constructed,
and leaves the watching list untouched when the watcher is absent. -/
theorem C4_amended_unload_all (m : PluginManager) :
    (unload_all m).plugins = [] ∧
    (m.watcherPresent = true → (unload_all m).watching = []) ∧
    (m.watcherPresent = false → (unload_all m).watching = m.watching) := by
  cases hw : m.watcherPresent with
  | true =>
    refine ⟨?_, fun _ => ?_, fun hf => Bool.noConfusion hf⟩
    · simp [unload_all, hw]
    · simp [unload_all, hw]
  | false =>
    refine ⟨?_, fun ht => Bool.noConfusion ht, fun _ => ?_⟩
    · simp [unload_all, hw]
    · simp [unload_all, hw]

/-- Witness for C4 amended, on both sides of the watcher flag. -/
theorem C4_amended_unload_all_witness :
    ((unload_all mFoo1).plugins = [] ∧ (unload_all mFoo1).watching = []) ∧
    (unload_all mNoWatcherFoo).watching = mNoWatcherFoo.watching :=
  ⟨⟨(C4_amended_unload_all mFoo1).1,
    (C4_amended_unload_all mFoo1).2.1 (by decide)⟩,
   (C4_amended_unload_all mNoWatcherFoo).2.2 (by decide)⟩

/-- C9: the actual destruction order of a record. The unload hook runs
first and the library is dropped last, but because the drop body binds
the fields through a mutable reference, its explicit drop calls are
no-ops and the remaining fields are destroyed in declaration order:
the proxy is dropped before the style handle, which is dropped before
the visual handle — not visual, style, proxy as the drop calls are
written. -/
theorem C9_teardown_trace :
    teardownEvents =
      [TeardownEvent.unloadHook, TeardownEvent.dropName,
       TeardownEvent.dropLibPath, TeardownEvent.dropProxy,
       TeardownEvent.dropStyle, TeardownEvent.dropVisual,
       TeardownEvent.dropLibrary] ∧
    List.indexOf TeardownEvent.dropProxy teardownEvents <
      List.indexOf TeardownEvent.dropVisual teardownEvents ∧
    List.indexOf TeardownEvent.dropStyle teardownEvents <
      List.indexOf TeardownEvent.dropVisual teardownEvents ∧
    teardownEvents.getLast? = some TeardownEvent.dropLibrary ∧
    teardownEvents.head? = some TeardownEvent.unloadHook := by decide

end DockPlugin
